import Mathlib

/-!
# Verification of the Card-Sender core logic

Shallow embedding of `src/Card_sender.py`: the contact parser
(`load_contacts_from_file`, lines 29-52), the birthday window filter
(`check_upcoming_birthdays`, lines 54-88), the card template selection
(`create_birthday_card`, lines 133-140) and the postage link builder
(`generate_usps_postage_link`, lines 192-197).

Python `datetime` values are modelled as a proleptic-Gregorian calendar date
together with a time of day in microseconds (`PyDateTime`); `datetime.now()`
becomes an explicit `today : PyDateTime` parameter of the filter.  Machine
library calls are embedded by their documented CPython semantics:
`str.replace` for one-character patterns (`pyReplaceChar`), `str.split`
(`String.splitOn`), `str.strip` (`String.trim`),
`datetime.strptime(_, "%m/%d/%Y")` (`strptimeMDY`, ASCII digits),
`datetime.replace(year=..)` (`pyReplaceYear`, which fails exactly when the
day is out of range for the substituted year, e.g. Feb 29 in a non-leap
year), `datetime.__lt__` (`dtLt`, lexicographic on date then time) and
`(a - b).days` (`timedeltaDays`, floor division of the microsecond
difference by the length of a day, matching `timedelta` normalisation).
-/

namespace CardSender

/-- Gregorian leap-year rule, as used by Python's `datetime` module. -/
def isLeap (y : Nat) : Bool :=
  (y % 4 == 0 && y % 100 != 0) || y % 400 == 0

/-- Number of days in month `m` (1-12) of year `y`. -/
def daysInMonth (y m : Nat) : Nat :=
  if m = 2 then (if isLeap y then 29 else 28)
  else if m = 4 ∨ m = 6 ∨ m = 9 ∨ m = 11 then 30
  else 31

/-- Days in year `y` before the first day of month `m`. -/
def daysBeforeMonth (y m : Nat) : Nat :=
  (List.range (m - 1)).foldl (fun a i => a + daysInMonth y (i + 1)) 0

/-- Proleptic-Gregorian ordinal of a calendar day, as Python's
`datetime.toordinal`: 0001-01-01 has ordinal 1. -/
def dateToOrdinal (y m d : Nat) : Nat :=
  (y - 1) * 365 + (y - 1) / 4 - (y - 1) / 100 + (y - 1) / 400
    + daysBeforeMonth y m + d

/-- A calendar date (what `strptime "%m/%d/%Y"` produces: time 00:00). -/
structure Date where
  year : Nat
  month : Nat
  day : Nat
deriving DecidableEq, Repr

/-- A Python `datetime`: a calendar date plus a time of day measured in
microseconds since midnight (hours, minutes, seconds and microseconds
flattened into one count). -/
structure PyDateTime where
  year : Nat
  month : Nat
  day : Nat
  micros : Nat
deriving DecidableEq, Repr

def microsPerDay : Nat := 86400000000

def PyDateTime.ordinal (t : PyDateTime) : Nat :=
  dateToOrdinal t.year t.month t.day

/-- Total microseconds since the proleptic epoch; used for subtraction. -/
def PyDateTime.toMicros (t : PyDateTime) : Int :=
  (t.ordinal : Int) * microsPerDay + t.micros

/-- Python `datetime` comparison `a < b`: lexicographic on the calendar
date and then on the time of day. -/
def dtLt (a b : PyDateTime) : Bool :=
  decide (a.ordinal < b.ordinal ∨ (a.ordinal = b.ordinal ∧ a.micros < b.micros))

/-- The `datetime` a parsed date denotes: that day at time 00:00. -/
def Date.atMidnight (d : Date) : PyDateTime :=
  ⟨d.year, d.month, d.day, 0⟩

/-- `(a - b).days` on Python datetimes: `timedelta` stores the difference
normalised so that `.days` is the floor of the difference in days. -/
def timedeltaDays (a b : PyDateTime) : Int :=
  Int.fdiv (a.toMicros - b.toMicros) microsPerDay

/-- Python `some_date.replace(year := y)` (source line 69/73): keeps month
and day and validates them against the new year; raises `ValueError`
(modelled as `none`) exactly when the day is out of range for that month in
the new year - the Feb 29 to non-leap-year case. -/
def pyReplaceYear (bd : Date) (y : Nat) : Option Date :=
  if bd.day ≤ daysInMonth y bd.month then some ⟨y, bd.month, bd.day⟩ else none

/-- Characters CPython `str.strip()` removes at either end (the ASCII
whitespace ones; `str.strip` also covers the non-ASCII Unicode spaces,
which the embedding does not model). -/
def isPySpace (c : Char) : Bool :=
  c == ' ' || c == '\t' || c == '\n' || c == '\r' ||
  c == Char.ofNat 11 || c == Char.ofNat 12

/-- Drop the longest run of characters satisfying `p` at the front. -/
def dropLeading (p : Char → Bool) : List Char → List Char
  | [] => []
  | c :: cs => if p c then dropLeading p cs else c :: cs

/-- CPython `str.strip()`: remove whitespace at both ends. -/
def pyStrip (s : List Char) : List Char :=
  ((dropLeading isPySpace ((dropLeading isPySpace s.reverse)).reverse))

/-- `s.strip()` on strings. -/
def pyStripStr (s : String) : String :=
  String.mk (pyStrip s.data)

/-- CPython `str.split(sep)` for a one-character separator (the only form
the source uses): split at every occurrence of `sep`, keeping empty
pieces; the empty string yields one empty piece. -/
def splitOnChar (sep : Char) : List Char → List (List Char)
  | [] => [[]]
  | c :: cs =>
    let r := splitOnChar sep cs
    if c = sep then [] :: r
    else
      match r with
      | [] => [[c]]
      | h :: t => (c :: h) :: t

/-- `s.split(sep)` on strings, one-character separator. -/
def pySplitStr (s : String) (sep : Char) : List String :=
  (splitOnChar sep s.data).map String.mk

/-- CPython `str.replace(old, new)` for a one-character pattern (the only
form the source uses): every occurrence of `old` is replaced by `rep`. -/
def pyReplaceChar (old : Char) (rep : List Char) : List Char → List Char
  | [] => []
  | c :: cs => (if c = old then rep else [c]) ++ pyReplaceChar old rep cs

/-- `s.replace(old, new)` on strings, one-character pattern. -/
def pyReplaceStr (s : String) (old : Char) (rep : String) : String :=
  String.mk (pyReplaceChar old rep.data s.data)

/-- Numeric value of a list of ASCII digits. -/
def digitsToNat (l : List Char) : Nat :=
  l.foldl (fun a c => a * 10 + (c.toNat - 48)) 0

/-- `datetime.strptime(s, "%m/%d/%Y")` (source line 66): `%m` and `%d`
match one or two digits, `%Y` exactly four; the match must cover the whole
string; the resulting triple must be a valid calendar date with year at
least 1 (otherwise `ValueError`, modelled as `none`).  Digits are modelled
as ASCII digits. -/
def strptimeMDY (s : String) : Option Date :=
  match pySplitStr s '/' with
  | [ms, ds, ys] =>
    if ms.data.all Char.isDigit ∧ 1 ≤ ms.length ∧ ms.length ≤ 2 ∧
       ds.data.all Char.isDigit ∧ 1 ≤ ds.length ∧ ds.length ≤ 2 ∧
       ys.data.all Char.isDigit ∧ ys.length = 4 then
      let m := digitsToNat ms.data
      let d := digitsToNat ds.data
      let y := digitsToNat ys.data
      if 1 ≤ y ∧ 1 ≤ m ∧ m ≤ 12 ∧ 1 ≤ d ∧ d ≤ daysInMonth y m then
        some ⟨y, m, d⟩
      else none
    else none
  | _ => none

/-- One contact record (source lines 43-47). -/
structure Contact where
  Name : String
  Address : String
  Birthdate : String
deriving DecidableEq, Repr

/-- One row of the upcoming-birthday output (source lines 78-84). -/
structure UpcomingRow where
  Name : String
  Address : String
  Birthdate : String
  DaysUntil : Int
  ThisYearBirthday : String
deriving DecidableEq, Repr

/-- Source lines 65-66: normalise `-` and `.` separators to `/` and parse
the birthdate field as `%m/%d/%Y`. -/
def parseBirthdate (s : String) : Option Date :=
  strptimeMDY (pyReplaceStr (pyReplaceStr s '-' "/") '.' "/")

/-- Zero-padded two-digit field of `strftime`. -/
def pad2 (n : Nat) : String :=
  if n < 10 then "0" ++ toString n else toString n

/-- `strftime("%m/%d/%Y")` (source line 83), for the four-digit years the
parser accepts. -/
def strftimeMDY (d : Date) : String :=
  pad2 d.month ++ "/" ++ pad2 d.day ++ "/" ++ toString d.year

/-- The per-record body of the loop of `check_upcoming_birthdays` (source
lines 62-86): parse the birthdate, substitute the current year, roll over
to the next year when this year's occurrence is before `today`, compute the
day difference, and keep the record when it lies in the window
`[0, days_ahead]`.  The bare `except: continue` that swallows `strptime`
and `replace` errors is the propagation of `none`. -/
def processContact (today : PyDateTime) (days_ahead : Int) (c : Contact) :
    Option UpcomingRow :=
  match parseBirthdate c.Birthdate with
  | none => none
  | some birth_date =>
    match pyReplaceYear birth_date today.year with
    | none => none
    | some this_year_birthday =>
      match (if dtLt this_year_birthday.atMidnight today then
               pyReplaceYear birth_date (today.year + 1)
             else some this_year_birthday) with
      | none => none
      | some occ =>
        let days_until := timedeltaDays occ.atMidnight today
        if 0 ≤ days_until ∧ days_until ≤ days_ahead then
          some ⟨c.Name, c.Address, c.Birthdate, days_until, strftimeMDY occ⟩
        else none

/-- `check_upcoming_birthdays` (source lines 54-88).  `today`, sampled once
by `datetime.now()` on source line 59, is an explicit parameter. -/
def check_upcoming_birthdays (contacts_df : List Contact) (days_ahead : Int)
    (today : PyDateTime) : List UpcomingRow :=
  if contacts_df.isEmpty then []
  else
    contacts_df.foldl
      (fun upcoming c =>
        match processContact today days_ahead c with
        | some r => upcoming ++ [r]
        | none => upcoming) []

/-- The record-and-countdown a contact denotes, before the window test:
the pipeline of `processContact` without the `0 <= days_until <=
days_ahead` check.  Used to state which records the filter keeps. -/
def birthdayInfo (today : PyDateTime) (c : Contact) : Option UpcomingRow :=
  match parseBirthdate c.Birthdate with
  | none => none
  | some birth_date =>
    match pyReplaceYear birth_date today.year with
    | none => none
    | some this_year_birthday =>
      match (if dtLt this_year_birthday.atMidnight today then
               pyReplaceYear birth_date (today.year + 1)
             else some this_year_birthday) with
      | none => none
      | some occ =>
        some ⟨c.Name, c.Address, c.Birthdate,
              timedeltaDays occ.atMidnight today, strftimeMDY occ⟩

/-- The occurrence date the filter computes for a contact (source lines
69-73): this year's birthday, or next year's when this year's has already
passed `today`. -/
def occurrenceOf (today : PyDateTime) (c : Contact) : Option Date :=
  match parseBirthdate c.Birthdate with
  | none => none
  | some birth_date =>
    match pyReplaceYear birth_date today.year with
    | none => none
    | some this_year_birthday =>
      if dtLt this_year_birthday.atMidnight today then
        pyReplaceYear birth_date (today.year + 1)
      else some this_year_birthday

/-- The decision `load_contacts_from_file` takes for one line (source lines
36-47): a line whose `strip` is non-empty and that splits on `,` into at
least three parts yields a record of the three first parts, trimmed. -/
def recordOfLine (line : String) : Option Contact :=
  if pyStripStr line ≠ "" then
    let parts := pySplitStr line ','
    if 3 ≤ parts.length then
      some ⟨pyStripStr (parts.getD 0 ""), pyStripStr (parts.getD 1 ""),
            pyStripStr (parts.getD 2 "")⟩
    else none
  else none

/-- The loop of `load_contacts_from_file` over the lines of the decoded
content (source lines 33-49): `content.strip().split('\n')`, then append
one record per accepted line. -/
def parseContacts (content : String) : List Contact :=
  (pySplitStr (pyStripStr content) '\n').foldl
    (fun contacts line =>
      match recordOfLine line with
      | some c => contacts ++ [c]
      | none => contacts) []

/-- Result of `load_contacts_from_file`: the record list plus whether
`st.error` was called (source line 51). -/
structure LoadResult where
  contacts : List Contact
  errorReported : Bool
deriving DecidableEq, Repr

/-- `load_contacts_from_file` (source lines 29-52).  The argument is the
outcome of `uploaded_file.read().decode('utf-8')`: `none` when decoding
raises (the `except` branch reports an error and returns an empty frame),
`some content` when it succeeds. -/
def load_contacts_from_file (decoded : Option String) : LoadResult :=
  match decoded with
  | some content => ⟨parseContacts content, false⟩
  | none => ⟨[], true⟩

/-- A card colour pair (source lines 133-138). -/
structure CardTemplate where
  bg : String
  text : String
deriving DecidableEq, Repr

/-- The `templates` dict of `create_birthday_card` (source lines 133-138),
as lookup. -/
def templates (name : String) : Option CardTemplate :=
  if name = "Classic" then some ⟨"#FFE4E1", "#8B0000"⟩
  else if name = "Modern" then some ⟨"#E6E6FA", "#4B0082"⟩
  else if name = "Fun" then some ⟨"#FFB6C1", "#FF1493"⟩
  else if name = "Elegant" then some ⟨"#F0F8FF", "#191970"⟩
  else none

/-- `templates.get(card_type, templates["Classic"])` (source line 140): the
colour pair `create_birthday_card` draws with.  The drawing itself (PIL
calls) is outside the embedding; the claim under verification is only about
this selection. -/
def cardTemplate (card_type : String) : CardTemplate :=
  (templates card_type).getD ⟨"#FFE4E1", "#8B0000"⟩

/-- `generate_usps_postage_link` (source lines 192-197). -/
def generate_usps_postage_link (address : String) : String :=
  let base_url := "https://cns.usps.com/mailpieces"
  let encoded_address := pyReplaceStr (pyReplaceStr address ' ' "%20") ',' "%2C"
  base_url ++ "?destination=" ++ encoded_address

/-- Spec-side rendering of the parser contract (spec section 4.1), written
from the spec's words for comparison with `recordOfLine`: one record per
non-blank line that splits on commas into at least 3 fields, mapping the
trimmed first, second and third fields to name, address and birthdate and
ignoring fields beyond the third; blank lines and lines with fewer than 3
fields produce no record. -/
def specLineToRecord (line : String) : Option Contact :=
  let fields := pySplitStr line ','
  if pyStripStr line = "" then none
  else if fields.length < 3 then none
  else some ⟨pyStripStr (fields.getD 0 ""), pyStripStr (fields.getD 1 ""),
             pyStripStr (fields.getD 2 "")⟩

/-- Spec-side per-character escape of the postage link (spec section 6):
every space becomes `%20`, every comma `%2C`, any other character is kept
unchanged. -/
def uspsEscapeChar (c : Char) : List Char :=
  if c = ' ' then ['%', '2', '0'] else if c = ',' then ['%', '2', 'C'] else [c]

/-- Sample contact of the spec's worked example (spec section 8). -/
def jane : Contact := ⟨"Jane Smith", "1 Oak Ave", "07/22/1985"⟩

/-- The output row the spec's worked example announces for `jane`. -/
def janeRow : UpcomingRow := ⟨"Jane Smith", "1 Oak Ave", "07/22/1985", 2, "07/22/2024"⟩

/-- 2024-07-20 at 00:00:00, the worked example's "today" as a datetime. -/
def july20_2024_midnight : PyDateTime := ⟨2024, 7, 20, 0⟩

/-- 2024-07-20 at 12:00:00: `datetime.now()` on the same day at noon. -/
def july20_2024_noon : PyDateTime := ⟨2024, 7, 20, 43200000000⟩

/-- A contact whose birthday falls exactly on 07/20, the date of the two
sample "today" values above. -/
def annToday : Contact := ⟨"Ann Lee", "2 Pine Rd", "07/20/1990"⟩

section Helpers

/-- The parser's accumulation loop is a `filterMap` over the lines. -/
theorem parse_loop_eq_filterMap (lines : List String) (acc : List Contact) :
    lines.foldl
      (fun contacts line =>
        match recordOfLine line with
        | some c => contacts ++ [c]
        | none => contacts) acc
      = acc ++ lines.filterMap recordOfLine := by
  induction lines generalizing acc with
  | nil => simp
  | cons l ls ih =>
    cases h : recordOfLine l with
    | none => simp [List.foldl_cons, h, ih, List.filterMap_cons]
    | some c => simp [List.foldl_cons, h, ih, List.filterMap_cons]

/-- The parser loop, as a `filterMap` over the content's lines. -/
theorem parseContacts_eq_filterMap (content : String) :
    parseContacts content
      = (pySplitStr (pyStripStr content) '\n').filterMap recordOfLine := by
  unfold parseContacts
  rw [parse_loop_eq_filterMap]
  simp

/-- The filter's accumulation loop is a `filterMap` over the contacts. -/
theorem filter_loop_eq_filterMap (t : PyDateTime) (H : Int)
    (l : List Contact) (acc : List UpcomingRow) :
    l.foldl
      (fun upcoming c =>
        match processContact t H c with
        | some r => upcoming ++ [r]
        | none => upcoming) acc
      = acc ++ l.filterMap (processContact t H) := by
  induction l generalizing acc with
  | nil => simp
  | cons c cs ih =>
    cases h : processContact t H c with
    | none => simp [List.foldl_cons, h, ih, List.filterMap_cons]
    | some r => simp [List.foldl_cons, h, ih, List.filterMap_cons]

/-- The filter loop, as a `filterMap` over the contact list. -/
theorem check_eq_filterMap (df : List Contact) (H : Int) (t : PyDateTime) :
    check_upcoming_birthdays df H t = df.filterMap (processContact t H) := by
  unfold check_upcoming_birthdays
  cases df with
  | nil => simp
  | cons c cs =>
    rw [if_neg (by simp)]
    rw [filter_loop_eq_filterMap]
    simp

/-- The per-record decision is the window test applied to the record's
computed countdown. -/
theorem processContact_eq_window (t : PyDateTime) (H : Int) (c : Contact) :
    processContact t H c
      = (birthdayInfo t c).bind
          (fun r => if 0 ≤ r.DaysUntil ∧ r.DaysUntil ≤ H then some r else none) := by
  unfold processContact birthdayInfo
  cases h1 : parseBirthdate c.Birthdate with
  | none => simp
  | some bd =>
    cases h2 : pyReplaceYear bd t.year with
    | none => simp [h2]
    | some ty =>
      cases h3 : (if dtLt ty.atMidnight t then pyReplaceYear bd (t.year + 1) else some ty) with
      | none => simp [h2, h3]
      | some occ => simp [h2, h3]

/-- A record whose birthdate does not parse contributes nothing. -/
theorem processContact_of_parse_none (t : PyDateTime) (H : Int) (c : Contact)
    (h : parseBirthdate c.Birthdate = none) : processContact t H c = none := by
  unfold processContact
  rw [h]

/-- `replace(year := y)` produces a date in year `y`. -/
theorem pyReplaceYear_year {bd : Date} {y : Nat} {d : Date}
    (h : pyReplaceYear bd y = some d) : d.year = y := by
  unfold pyReplaceYear at h
  by_cases hd : bd.day ≤ daysInMonth y bd.month
  · rw [if_pos hd] at h
    cases h
    rfl
  · rw [if_neg hd] at h
    cases h

/-- A one-character `str.replace` maps each character independently. -/
theorem pyReplaceChar_eq_flatMap (old : Char) (rep : List Char) (s : List Char) :
    pyReplaceChar old rep s = s.flatMap (fun c => if c = old then rep else [c]) := by
  induction s with
  | nil => rfl
  | cons c cs ih => simp [pyReplaceChar, ih, List.flatMap_cons]

/-- A line is turned into a record exactly under the spec's per-line rule. -/
theorem recordOfLine_eq_specLine (line : String) :
    recordOfLine line = specLineToRecord line := by
  unfold recordOfLine specLineToRecord
  by_cases h1 : pyStripStr line = ""
  · simp [h1]
  · by_cases h2 : 3 ≤ (pySplitStr line ',').length
    · simp [h1, h2, Nat.not_lt.mpr h2]
    · simp [h1, h2, Nat.lt_of_not_le h2]

end Helpers

/-- C3: for every raw multi-line input text, the contact parser returns
exactly, in input order, one record per non-blank line that splits on
commas into at least 3 fields, mapping the trimmed first, second and third
fields to name, address and birthdate and ignoring any further fields;
blank lines and lines with fewer than 3 fields produce no record, and no
error is reported. -/
theorem contact_parser_keeps_exactly_wellformed_lines (content : String) :
    (load_contacts_from_file (some content)).contacts
      = (pySplitStr (pyStripStr content) '\n').filterMap specLineToRecord ∧
    (load_contacts_from_file (some content)).errorReported = false := by
  constructor
  · show parseContacts content = _
    rw [parseContacts_eq_filterMap]
    exact List.filterMap_congr (fun line _ => recordOfLine_eq_specLine line)
  · rfl

/-- C4: for every contact list, horizon and `today`, the filter's output
is exactly the input-ordered list of records whose computed countdown
satisfies `0 <= daysUntil <= H` (so a record at `daysUntil = H` is kept and
one at `daysUntil = H + 1` is not), each annotated with its countdown and
occurrence. -/
theorem birthday_window_keeps_exactly_horizon_window
    (df : List Contact) (H : Int) (t : PyDateTime) :
    check_upcoming_birthdays df H t
      = df.filterMap (fun c => (birthdayInfo t c).bind
          (fun r => if 0 ≤ r.DaysUntil ∧ r.DaysUntil ≤ H then some r else none)) := by
  rw [check_eq_filterMap]
  exact List.filterMap_congr (fun c _ => processContact_eq_window t H c)

/-- C7: when the uploaded bytes cannot be decoded as text, the parser
reports an error and returns the empty record list - no partial results. -/
theorem decode_failure_reports_error_and_yields_nothing :
    (load_contacts_from_file none).contacts = [] ∧
    (load_contacts_from_file none).errorReported = true :=
  ⟨rfl, rfl⟩

/-- C8: the filter is deterministic and repeatable - two runs on the same
contact sequence, the same `today` and the same horizon produce identical
outputs. -/
theorem filter_two_runs_agree (df : List Contact) (H : Int) (t : PyDateTime)
    (out1 out2 : List UpcomingRow)
    (h1 : out1 = check_upcoming_birthdays df H t)
    (h2 : out2 = check_upcoming_birthdays df H t) :
    out1 = out2 :=
  h1.trans h2.symm

/-- Witness for C8 at the worked example's input. -/
theorem filter_two_runs_agree_witness :
    ([janeRow] = check_upcoming_birthdays [jane] 7 july20_2024_midnight) ∧
    ([janeRow] = check_upcoming_birthdays [jane] 7 july20_2024_midnight) ∧
    ([janeRow] : List UpcomingRow) = [janeRow] := by
  have hw : [janeRow] = check_upcoming_birthdays [jane] 7 july20_2024_midnight := by
    decide
  exact ⟨hw, hw,
    filter_two_runs_agree [jane] 7 july20_2024_midnight [janeRow] [janeRow] hw hw⟩

/-- C10: a card style that is none of the four presets falls back to the
"Classic" background/text colour pair instead of failing. -/
theorem unknown_card_style_falls_back_to_classic (card_type : String)
    (h1 : card_type ≠ "Classic") (h2 : card_type ≠ "Modern")
    (h3 : card_type ≠ "Fun") (h4 : card_type ≠ "Elegant") :
    cardTemplate card_type = ⟨"#FFE4E1", "#8B0000"⟩ := by
  simp [cardTemplate, templates, h1, h2, h3, h4]

/-- C2: on the spec's worked example - input line
`"Jane Smith, 1 Oak Ave, 07/22/1985"`, today = the datetime 07/20/2024
(midnight) and horizon 7 - the pipeline keeps Jane with `daysUntil = 2` and
`nextOccurrence = 07/22/2024`. -/
theorem jane_example_kept_with_two_days :
    check_upcoming_birthdays
      (load_contacts_from_file (some "Jane Smith, 1 Oak Ave, 07/22/1985")).contacts
      7 july20_2024_midnight = [janeRow] := by
  decide

/-- C1 (evaluation at the failing input): for a contact whose birthdate
month/day equals today's month/day and `datetime.now()` at noon of that
day, the code compares the midnight birthday against the clock time, rolls
the occurrence over to the NEXT year, computes `daysUntil = 364` instead of
0, and excludes the record at horizon 7 - contradicting the claim and the
source's own comment "If birthday has passed this year". -/
theorem todays_birthday_excluded_at_noon :
    birthdayInfo july20_2024_noon annToday
      = some ⟨"Ann Lee", "2 Pine Rd", "07/20/1990", 364, "07/20/2025"⟩ ∧
    check_upcoming_birthdays [annToday] 7 july20_2024_noon = [] := by
  constructor
  · decide
  · decide

/-- C5: when this year's occurrence of a parsed birthdate lies strictly
before `today` (Python datetime comparison), the computed occurrence falls
in the next year; otherwise it falls in the current year. -/
theorem occurrence_year_rollover (c : Contact) (t : PyDateTime)
    (bd ty occ : Date)
    (h1 : parseBirthdate c.Birthdate = some bd)
    (h2 : pyReplaceYear bd t.year = some ty)
    (h3 : occurrenceOf t c = some occ) :
    (dtLt ty.atMidnight t = true → occ.year = t.year + 1) ∧
    (dtLt ty.atMidnight t = false → occ.year = t.year) := by
  unfold occurrenceOf at h3
  rw [h1] at h3
  simp only [h2] at h3
  cases hlt : dtLt ty.atMidnight t with
  | true =>
    rw [if_pos] at h3
    · exact ⟨fun _ => pyReplaceYear_year h3, fun hf => Bool.noConfusion hf⟩
    · exact hlt
  | false =>
    rw [if_neg] at h3
    · refine ⟨fun ht => Bool.noConfusion ht, fun _ => ?_⟩
      cases h3
      exact pyReplaceYear_year h2
    · simp [hlt]

/-- Witness for C5: birthdate 03/15 has passed by 07/20/2024 noon, so the
occurrence falls in 2025. -/
theorem occurrence_year_rollover_witness :
    (parseBirthdate "03/15/1990" = some ⟨1990, 3, 15⟩ ∧
     pyReplaceYear ⟨1990, 3, 15⟩ 2024 = some ⟨2024, 3, 15⟩ ∧
     occurrenceOf july20_2024_noon ⟨"Ann Lee", "2 Pine Rd", "03/15/1990"⟩
       = some ⟨2025, 3, 15⟩) ∧
    ((dtLt (Date.atMidnight ⟨2024, 3, 15⟩) july20_2024_noon = true →
        (2025 : Nat) = 2024 + 1) ∧
     (dtLt (Date.atMidnight ⟨2024, 3, 15⟩) july20_2024_noon = false →
        (2025 : Nat) = 2024)) := by
  have h1 : parseBirthdate "03/15/1990" = some ⟨1990, 3, 15⟩ := by decide
  have h2 : pyReplaceYear ⟨1990, 3, 15⟩ 2024 = some ⟨2024, 3, 15⟩ := by decide
  have h3 : occurrenceOf july20_2024_noon ⟨"Ann Lee", "2 Pine Rd", "03/15/1990"⟩
      = some ⟨2025, 3, 15⟩ := by decide
  exact ⟨⟨h1, h2, h3⟩,
    occurrence_year_rollover ⟨"Ann Lee", "2 Pine Rd", "03/15/1990"⟩
      july20_2024_noon ⟨1990, 3, 15⟩ ⟨2024, 3, 15⟩ ⟨2025, 3, 15⟩ h1 h2 h3⟩

/-- C6: a record whose birthdate field does not parse (after normalising
`-` and `.` to `/`) is still retained in the parsed contact collection, and
is dropped, with no error and no other change to the output, only by the
birthday filter. -/
theorem unparseable_birthdate_retained_then_silently_dropped
    (content line : String) (c : Contact) (pre post : List Contact)
    (t : PyDateTime) (H : Int)
    (h0 : line ∈ pySplitStr (pyStripStr content) '\n')
    (h1 : recordOfLine line = some c)
    (h2 : parseBirthdate c.Birthdate = none) :
    c ∈ (load_contacts_from_file (some content)).contacts ∧
    check_upcoming_birthdays (pre ++ c :: post) H t
      = check_upcoming_birthdays (pre ++ post) H t := by
  constructor
  · show c ∈ parseContacts content
    rw [parseContacts_eq_filterMap]
    exact List.mem_filterMap.mpr ⟨line, h0, h1⟩
  · rw [check_eq_filterMap, check_eq_filterMap]
    simp [List.filterMap_append, List.filterMap_cons,
      processContact_of_parse_none t H c h2]

/-- Witness for C6: the record with birthdate "unknown" is loaded but
filtered out. -/
theorem unparseable_birthdate_retained_then_silently_dropped_witness :
    ("Ann Lee, 2 Pine Rd, unknown"
        ∈ pySplitStr (pyStripStr "Ann Lee, 2 Pine Rd, unknown") '\n' ∧
     recordOfLine "Ann Lee, 2 Pine Rd, unknown"
        = some ⟨"Ann Lee", "2 Pine Rd", "unknown"⟩ ∧
     parseBirthdate "unknown" = none) ∧
    ((⟨"Ann Lee", "2 Pine Rd", "unknown"⟩ : Contact)
        ∈ (load_contacts_from_file (some "Ann Lee, 2 Pine Rd, unknown")).contacts ∧
     check_upcoming_birthdays
        ([] ++ (⟨"Ann Lee", "2 Pine Rd", "unknown"⟩ : Contact) :: []) 7 july20_2024_noon
        = check_upcoming_birthdays ([] ++ []) 7 july20_2024_noon) := by
  have h0 : "Ann Lee, 2 Pine Rd, unknown"
      ∈ pySplitStr (pyStripStr "Ann Lee, 2 Pine Rd, unknown") '\n' := by decide
  have h1 : recordOfLine "Ann Lee, 2 Pine Rd, unknown"
      = some ⟨"Ann Lee", "2 Pine Rd", "unknown"⟩ := by decide
  have h2 : parseBirthdate "unknown" = none := by decide
  exact ⟨⟨h0, h1, h2⟩,
    unparseable_birthdate_retained_then_silently_dropped
      "Ann Lee, 2 Pine Rd, unknown" "Ann Lee, 2 Pine Rd, unknown"
      ⟨"Ann Lee", "2 Pine Rd", "unknown"⟩ [] [] july20_2024_noon 7 h0 h1 h2⟩

/-- C9: for every address string, the postage link is the fixed base URL
with the address appended as the `destination` query parameter, each space
replaced by `%20`, each comma by `%2C`, and every other character left
unchanged. -/
theorem postage_link_escapes_spaces_and_commas (address : String) :
    generate_usps_postage_link address
      = "https://cns.usps.com/mailpieces?destination="
          ++ String.mk (address.data.flatMap uspsEscapeChar) := by
  have key : pyReplaceChar ',' "%2C".data (pyReplaceChar ' ' "%20".data address.data)
      = address.data.flatMap uspsEscapeChar := by
    rw [pyReplaceChar_eq_flatMap, pyReplaceChar_eq_flatMap, List.flatMap_assoc]
    have hfun : (fun c => (if c = ' ' then "%20".data else [c]).flatMap
        (fun c2 => if c2 = ',' then "%2C".data else [c2])) = uspsEscapeChar := by
      funext c
      by_cases hsp : c = ' '
      · subst hsp
        decide
      · by_cases hcm : c = ','
        · subst hcm
          decide
        · simp [hsp, hcm, uspsEscapeChar]
    rw [hfun]
  show "https://cns.usps.com/mailpieces" ++ "?destination="
      ++ String.mk (pyReplaceChar ',' "%2C".data
          (String.mk (pyReplaceChar ' ' "%20".data address.data)).data) = _
  rw [show (String.mk (pyReplaceChar ' ' "%20".data address.data)).data
      = pyReplaceChar ' ' "%20".data address.data from rfl]
  rw [key]
  rfl

/-- Witness for C10 at the unknown style "Vintage". -/
theorem unknown_card_style_falls_back_to_classic_witness :
    ("Vintage" ≠ "Classic" ∧ "Vintage" ≠ "Modern" ∧
     "Vintage" ≠ "Fun" ∧ "Vintage" ≠ "Elegant") ∧
    cardTemplate "Vintage" = ⟨"#FFE4E1", "#8B0000"⟩ :=
  ⟨⟨by decide, by decide, by decide, by decide⟩,
    unknown_card_style_falls_back_to_classic "Vintage"
      (by decide) (by decide) (by decide) (by decide)⟩

end CardSender
